import Mathlib

/-!
Shallow embedding of the GLSP socket-server contribution
(`glsp-socket-server-contribution.ts`): process launching, readiness
detection on the process output stream, socket connection and port
resolution from command-line arguments.

JavaScript numbers are modelled by `JSNum` (an integer or the NaN
sentinel); JavaScript strings by Lean `String`, with the handful of
string operations the source uses (`startsWith`, `endsWith`,
`substring`, first-occurrence `replace`) re-implemented over the
character list so that everything reduces in the kernel.
-/

namespace GLSP

/-- A JavaScript number as used by this code: an integer value or `NaN`.
(The source only ever produces integral numbers: ports and parse results.) -/
inductive JSNum where
  | num (val : Int)
  | nan
deriving DecidableEq, Repr

/-- `isNaN(x)` from JavaScript. -/
def JSNum.isNaN : JSNum → Bool
  | .nan => true
  | .num _ => false

/-- JavaScript truthiness of a number: `0` and `NaN` are falsy. -/
def JSNum.truthy : JSNum → Bool
  | .nan => false
  | .num v => v != 0

/-- String interpolation `${n}` of a JavaScript number. -/
def JSNum.render : JSNum → String
  | .num v => toString v
  | .nan => "NaN"

/-- `s.startsWith(pre)` from JavaScript. -/
def jsStartsWith (s pre : String) : Bool :=
  pre.data.isPrefixOf s.data

/-- `s.endsWith(suf)` from JavaScript. -/
def jsEndsWith (s suf : String) : Bool :=
  suf.data.isSuffixOf s.data

/-- `s.substring(n)` from JavaScript (drop the first `n` characters). -/
def jsSubstringFrom (s : String) (n : Nat) : String :=
  ⟨s.data.drop n⟩

/-- `s.length` from JavaScript. -/
def jsLength (s : String) : Nat :=
  s.data.length

/-- Replace the first occurrence of `pat` in a character list by `rep`
(the behaviour of JavaScript `String.replace` with a string pattern). -/
def replaceFirstChars (pat rep : List Char) : List Char → List Char
  | [] => if pat.isEmpty then rep else []
  | c :: cs =>
    if pat.isPrefixOf (c :: cs) then rep ++ (c :: cs).drop pat.length
    else c :: replaceFirstChars pat rep cs

/-- `s.replace(pat, rep)` from JavaScript (string pattern: first occurrence only). -/
def jsReplaceFirst (s pat rep : String) : String :=
  ⟨replaceFirstChars pat.data rep.data s.data⟩

/-- `Number.parseInt(s, 10)` from JavaScript: skip leading whitespace, read an
optional sign and then the longest run of decimal digits; `NaN` when that
run is empty. -/
def parseInt10 (s : String) : JSNum :=
  let cs := s.data.dropWhile Char.isWhitespace
  let signAndRest : Int × List Char :=
    match cs with
    | '-' :: rest => (-1, rest)
    | '+' :: rest => (1, rest)
    | _ => (1, cs)
  let ds := signAndRest.2.takeWhile Char.isDigit
  if ds.isEmpty then .nan
  else .num (signAndRest.1 * (ds.foldl (fun a c => a * 10 + (c.toNat - 48)) 0 : Nat))

/-- The normalised CLI key built at the top of `getPort`:
`` `--${argsKey.replace('--', '').replace('=', '')}=` ``. -/
def mkArgsKey (argsKey : String) : String :=
  "--" ++ jsReplaceFirst (jsReplaceFirst argsKey "--" "") "=" "" ++ "="

/-- `getPort(argsKey, defaultPort?)` from the source, with `process.argv`
made explicit as the `argv` parameter and an absent `defaultPort`
modelled as `none`:

```ts
export function getPort(argsKey: string, defaultPort?: number): number {
    argsKey = `--${argsKey.replace('--', '').replace('=', '')}=`;
    const args = process.argv.filter(a => a.startsWith(argsKey));
    if (args.length > 0) {
        return Number.parseInt(args[0].substring(argsKey.length), 10);
    }
    return defaultPort ? defaultPort : NaN;
}
``` -/
def getPort (argsKey : String) (argv : List String) (defaultPort : Option JSNum) : JSNum :=
  let key := mkArgsKey argsKey
  match argv.filter (fun a => jsStartsWith a key) with
  | a :: _ => parseInt10 (jsSubstringFrom a (jsLength key))
  | [] =>
    match defaultPort with
    | some d => if d.truthy then d else .nan
    | none => .nan

/-- `net.TcpSocketConnectOpts` as used here: a port (a JS number, so
possibly `NaN`) and an optional host. -/
structure TcpSocketConnectOpts where
  port : JSNum
  host : Option String := none
deriving DecidableEq, Repr

/-- `GLSPSocketServerContributionOptions`: the fields this file reads.
`executable` and `additionalArgs` are optional (`undefined` is `none`). -/
structure GLSPSocketServerContributionOptions where
  executable : Option String
  socketConnectionOptions : TcpSocketConnectOpts
  additionalArgs : Option (List String)
deriving DecidableEq, Repr

/-- `GLSPSocketServerContributionOptions.createDefaultOptions()`: the base
defaults plus `socketConnectionOptions: { port: NaN }`. (The fields of the
base `GLSPServerContributionOptions` defaults play no role here.) -/
def createDefaultOptions : GLSPSocketServerContributionOptions :=
  { executable := none
    socketConnectionOptions := { port := .nan, host := none }
    additionalArgs := none }

/-- A `Partial<GLSPSocketServerContributionOptions>` as returned by a
contribution's `createContributionOptions()`: each field is either absent
(`none`) or supplied. -/
structure ContributionOptionsOverride where
  executable : Option String := none
  socketConnectionOptions : Option TcpSocketConnectOpts := none
  additionalArgs : Option (List String) := none
deriving DecidableEq, Repr

/-- `GLSPSocketServerContributionOptions.configure(options)`: spread the
defaults, then the supplied fields (`{...createDefaultOptions(), ...options}`). -/
def configure (p : ContributionOptionsOverride) : GLSPSocketServerContributionOptions :=
  { executable := p.executable
    socketConnectionOptions := p.socketConnectionOptions.getD createDefaultOptions.socketConnectionOptions
    additionalArgs := p.additionalArgs }

/-- The errors this file can produce (the messages of the `new Error(...)`
calls, plus the launch-time failures that reach the same deferred). -/
inductive Err where
  | noExecutable
  | executableNotFound (path : String)
  | portNaN
  | invalidExecutable (path : String)
  | spawnFailure
  | processExited
deriving DecidableEq, Repr

/-- The state of `onReadyDeferred` (a Theia `Deferred<void>`, i.e. a
JavaScript promise): pending, resolved, or rejected with an error.
A promise settles at most once; later `resolve`/`reject` calls are no-ops. -/
inductive GateState where
  | waiting
  | ready
  | failed (reason : Err)
deriving DecidableEq, Repr

/-- `onReadyDeferred.resolve()`: settles the deferred if it is still
pending, otherwise does nothing (JavaScript promises settle once). -/
def resolveGate : GateState → GateState
  | .waiting => .ready
  | s => s

/-- `onReadyDeferred.reject(e)`: settles the deferred with an error if it
is still pending, otherwise does nothing. -/
def rejectGate (e : Err) : GateState → GateState
  | .waiting => .failed e
  | s => s

/-- The startup sentinel `START_UP_COMPLETE_MSG`. -/
def START_UP_COMPLETE_MSG : String := "[GLSP-Server]:Startup completed"

/-- `processLogInfo(line)`: resolve the readiness deferred when the line
starts with the sentinel. -/
def processLogInfo (st : GateState) (line : String) : GateState :=
  if jsStartsWith line START_UP_COMPLETE_MSG then resolveGate st else st

/-- Feed a sequence of stdout lines through `processLogInfo`. -/
def runGate (st : GateState) : List String → GateState
  | [] => st
  | l :: ls => runGate (processLogInfo st l) ls

/-- How many of the given lines actually settle the deferred to `ready`
(i.e. cause a state change into `ready`): "resolves exactly once" means
this count is `1`. -/
def readyTransitions (st : GateState) : List String → Nat
  | [] => 0
  | l :: ls =>
    (if processLogInfo st l = .ready ∧ st ≠ .ready then 1 else 0) +
      readyTransitions (processLogInfo st l) ls

/-- The outcome of `launch()`: the process-spawn side effects that occurred
(command and argument vector of each `spawnProcessAsync` call) and the
state of the readiness deferred that `launch` returns. -/
structure LaunchOutcome where
  spawns : List (String × List String)
  deferred : GateState
deriving DecidableEq, Repr

/-- The fixed JVM flags `getJavaProcessJvmArgs()`. -/
def getJavaProcessJvmArgs : List String :=
  ["--add-opens", "java.base/java.util=ALL-UNNAMED"]

/-- `this.options.executable!` (the non-null assertion in the two
argument builders; `launch` only reaches them with a truthy executable). -/
def exeOrEmpty (o : GLSPSocketServerContributionOptions) : String :=
  o.executable.getD ""

/-- The `--host` suffix: pushed only when
`this.options.socketConnectionOptions.host` is truthy (defined and non-empty). -/
def hostArgs (o : GLSPSocketServerContributionOptions) : List String :=
  match o.socketConnectionOptions.host with
  | some h => if h = "" then [] else ["--host", h]
  | none => []

/-- The `additionalArgs` suffix: pushed only when defined (an `undefined`
array contributes nothing, like an empty one). -/
def additionalArgsList (o : GLSPSocketServerContributionOptions) : List String :=
  o.additionalArgs.getD []

/-- The argument vector built by `launchJavaProcess()`. -/
def launchJavaProcessArgs (o : GLSPSocketServerContributionOptions) : List String :=
  getJavaProcessJvmArgs ++
    ["-jar", exeOrEmpty o, "--port", (o.socketConnectionOptions.port).render] ++
    hostArgs o ++ additionalArgsList o

/-- The argument vector built by `launchNodeProcess()`. -/
def launchNodeProcessArgs (o : GLSPSocketServerContributionOptions) : List String :=
  [exeOrEmpty o, "--port", (o.socketConnectionOptions.port).render] ++
    hostArgs o ++ additionalArgsList o

/-- The body of the `try` block of `launch()` up to the spawn call: the
validation sequence, returning either the thrown error or the command and
argument vector that will be spawned. `fsExists` models `fs.existsSync`. -/
def launchChecks (fsExists : String → Bool) (o : GLSPSocketServerContributionOptions) :
    Except Err (String × List String) :=
  match o.executable with
  | none => .error .noExecutable
  | some exe =>
    if exe = "" then .error .noExecutable
    else if fsExists exe = false then .error (.executableNotFound exe)
    else if (o.socketConnectionOptions.port).isNaN then .error .portNaN
    else if jsEndsWith exe ".jar" then .ok ("java", launchJavaProcessArgs o)
    else if jsEndsWith exe ".js" then .ok ("node", launchNodeProcessArgs o)
    else .error (.invalidExecutable exe)

/-- `launch()`: run the checks inside `try`; any thrown error is caught and
funnelled into `onReadyDeferred.reject`; otherwise exactly one process is
spawned. `spawnOutcome cmd args = some e` models `spawnProcessAsync`
rejecting at launch time; its error is caught by the same `catch`.
`launch` itself never throws — it always returns the deferred's promise. -/
def launch (fsExists : String → Bool) (spawnOutcome : String → List String → Option Err)
    (o : GLSPSocketServerContributionOptions) : LaunchOutcome :=
  match launchChecks fsExists o with
  | .error e => { spawns := [], deferred := rejectGate e .waiting }
  | .ok (cmd, args) =>
    { spawns := [(cmd, args)]
      deferred :=
        match spawnOutcome cmd args with
        | some e => rejectGate e .waiting
        | none => .waiting }

/-- An event of the spawned process observed by the contribution: a line of
standard output, or the process terminating (exit or error). -/
inductive ProcEvent where
  | line (s : String)
  | exited
deriving DecidableEq, Repr

/-- Whether an event is an output line starting with the startup sentinel. -/
def eventSignalsReady : ProcEvent → Bool
  | .line s => jsStartsWith s START_UP_COMPLETE_MSG
  | .exited => false

/-- Modelled from the spec: the process exit/error handler of
`BaseGLSPServerContribution` (file `glsp-server-contribution.ts`, not part
of the sources at hand) rejects the readiness deferred when the process
terminates — "If the process terminates (exit or error) before the
sentinel appears, the readiness future resolves to Failed". Output lines
go through `processLogInfo` as in the source. -/
def stepEvent (st : GateState) : ProcEvent → GateState
  | .line s => processLogInfo st s
  | .exited => rejectGate .processExited st

/-- Feed a sequence of process events through the readiness deferred. -/
def runEvents (st : GateState) : List ProcEvent → GateState
  | [] => st
  | e :: es => runEvents (stepEvent st e) es

/-- How many of the given events actually settle the deferred (cause any
state change): "resolves exactly once" means this count is `1`. -/
def settleCount (st : GateState) : List ProcEvent → Nat
  | [] => 0
  | e :: es =>
    (if stepEvent st e = st then 0 else 1) + settleCount (stepEvent st e) es

/-- The side effects of `connectToSocketServer`, in program order. -/
inductive ConnectEffect where
  | socketCreated
  | forwarderInstalled
  | errorHandlerInstalled
  | socketConnect (opts : TcpSocketConnectOpts)
  | disposableRegistered
deriving DecidableEq, Repr

/-- `connectToSocketServer(clientChannel)`: throw when the configured port
is `NaN` (before creating the socket); otherwise create the socket, install
the forwarder, install the socket-error handler only when the client
channel is a `ForwardingChannel`, initiate the connection, and register the
socket-destroy disposable. The result pairs the effects that occurred with
the thrown error, if any. -/
def connectToSocketServer (isForwardingChannel : Bool)
    (o : GLSPSocketServerContributionOptions) : List ConnectEffect × Option Err :=
  if (o.socketConnectionOptions.port).isNaN then ([], some .portNaN)
  else
    ([ConnectEffect.socketCreated, ConnectEffect.forwarderInstalled] ++
      (if isForwardingChannel then [ConnectEffect.errorHandlerInstalled] else []) ++
      [ConnectEffect.socketConnect o.socketConnectionOptions,
        ConnectEffect.disposableRegistered],
      none)

/-- What happens to a socket-level error: it is reported on the client
channel's error emitter, or merely logged. Nothing is ever thrown — the
handlers are event callbacks. -/
inductive ErrorEffect where
  | logged (msg : String)
  | channelErrorFired (msg : String)
deriving DecidableEq, Repr

/-- Modelled from the spec: the `SocketConnectionForwarder` (file
`socket-connection-forwarder.ts`, not part of the sources at hand) logs
socket errors — "otherwise they are dropped after logging (non-fatal to
the process)". -/
def forwarderOnSocketError (msg : String) : List ErrorEffect :=
  [.logged msg]

/-- The combined reaction to a socket `error` event: the forwarder
(installed first by `forward`) logs it, and the handler installed by
`connectToSocketServer` additionally fires it on the client channel's
`onErrorEmitter` — but only when the channel is a `ForwardingChannel`. -/
def onSocketError (isForwardingChannel : Bool) (msg : String) : List ErrorEffect :=
  forwarderOnSocketError msg ++
    (if isForwardingChannel then [ErrorEffect.channelErrorFired msg] else [])

/-- A bound bridge session: whether it has been disposed, and how many
process-kill and socket-destroy calls have been issued on its behalf. -/
structure BridgeSession where
  disposed : Bool
  processKills : Nat
  socketDestroys : Nat
deriving DecidableEq, Repr

/-- A freshly bound session: not yet disposed, no kills or destroys issued. -/
def freshSession : BridgeSession :=
  { disposed := false, processKills := 0, socketDestroys := 0 }

/-- Modelled from the spec: disposal of a bound session (driven by the
`toDispose` `DisposableCollection` of `BaseGLSPServerContribution`, not
part of the sources at hand, which holds the process-kill disposable, the
`SocketConnectionForwarder` and the `socket.destroy()` disposable) —
"once either side closes, the session disposes the other side and itself
exactly once (idempotent disposal)": a second or concurrent dispose call
finds the collection already disposed and does nothing. -/
def disposeSession (s : BridgeSession) : BridgeSession :=
  if s.disposed then s
  else
    { disposed := true
      processKills := s.processKills + 1
      socketDestroys := s.socketDestroys + 1 }

/-! ## Helper lemmas -/

theorem processLogInfo_ready (l : String) : processLogInfo .ready l = .ready := by
  by_cases h : jsStartsWith l START_UP_COMPLETE_MSG <;> simp [processLogInfo, resolveGate, h]

theorem processLogInfo_failed (e : Err) (l : String) :
    processLogInfo (.failed e) l = .failed e := by
  by_cases h : jsStartsWith l START_UP_COMPLETE_MSG <;> simp [processLogInfo, resolveGate, h]

theorem processLogInfo_waiting_matched {l : String}
    (h : jsStartsWith l START_UP_COMPLETE_MSG = true) :
    processLogInfo .waiting l = .ready := by
  simp [processLogInfo, resolveGate, h]

theorem processLogInfo_waiting_unmatched {l : String}
    (h : jsStartsWith l START_UP_COMPLETE_MSG = false) :
    processLogInfo .waiting l = .waiting := by
  simp [processLogInfo, h]

theorem runGate_ready : ∀ ls : List String, runGate .ready ls = .ready
  | [] => rfl
  | l :: ls => by rw [runGate, processLogInfo_ready]; exact runGate_ready ls

theorem readyTransitions_ready : ∀ ls : List String, readyTransitions .ready ls = 0
  | [] => rfl
  | l :: ls => by
    rw [readyTransitions, processLogInfo_ready]
    simp [readyTransitions_ready ls]

theorem stepEvent_failed (r : Err) (e : ProcEvent) :
    stepEvent (.failed r) e = .failed r := by
  cases e with
  | line s => exact processLogInfo_failed r s
  | exited => rfl

theorem runEvents_failed (r : Err) : ∀ es : List ProcEvent,
    runEvents (.failed r) es = .failed r
  | [] => rfl
  | e :: es => by rw [runEvents, stepEvent_failed]; exact runEvents_failed r es

theorem settleCount_failed (r : Err) : ∀ es : List ProcEvent,
    settleCount (.failed r) es = 0
  | [] => rfl
  | e :: es => by
    rw [settleCount, stepEvent_failed]
    simp [settleCount_failed r es]

theorem launch_checks_error_of_invalid (fsExists : String → Bool)
    (o : GLSPSocketServerContributionOptions)
    (h : o.executable = none ∨
      ∃ exe, o.executable = some exe ∧
        (fsExists exe = false ∨ (o.socketConnectionOptions.port).isNaN = true ∨
          (jsEndsWith exe ".jar" = false ∧ jsEndsWith exe ".js" = false))) :
    ∃ e, launchChecks fsExists o = .error e := by
  rcases h with h | ⟨exe, hexe, hbad⟩
  · exact ⟨.noExecutable, by simp [launchChecks, h]⟩
  · unfold launchChecks
    rw [hexe]
    by_cases h1 : exe = ""
    · exact ⟨.noExecutable, by simp [h1]⟩
    · by_cases h2 : fsExists exe = false
      · exact ⟨.executableNotFound exe, by simp [h1, h2]⟩
      · by_cases h3 : (o.socketConnectionOptions.port).isNaN = true
        · exact ⟨.portNaN, by simp [h1, h2, h3]⟩
        · rcases hbad with hb | hb | ⟨hb1, hb2⟩
          · exact absurd hb h2
          · exact absurd hb h3
          · exact ⟨.invalidExecutable exe, by simp [h1, h2, h3, hb1, hb2]⟩

/-! ## Claims -/

/-- C1: for every sequence of process output lines, the readiness deferred
resolves to `ready` exactly once, at the first line carrying the startup
sentinel as a prefix (exact match included): the lines before it leave the
deferred `waiting`, the first sentinel line resolves it, and any further
lines (sentinel or not) cause no additional state change — the number of
`ready`-settling transitions over the whole sequence is exactly one. -/
theorem readiness_resolves_exactly_once_at_first_sentinel
    (pre post : List String) (l : String)
    (hpre : ∀ x ∈ pre, jsStartsWith x START_UP_COMPLETE_MSG = false)
    (hl : jsStartsWith l START_UP_COMPLETE_MSG = true) :
    runGate .waiting pre = .waiting ∧
    runGate .waiting (pre ++ l :: post) = .ready ∧
    readyTransitions .waiting (pre ++ l :: post) = 1 := by
  induction pre with
  | nil =>
    refine ⟨rfl, ?_, ?_⟩
    · rw [List.nil_append, runGate, processLogInfo_waiting_matched hl, runGate_ready]
    · rw [List.nil_append, readyTransitions, processLogInfo_waiting_matched hl,
        readyTransitions_ready]
      simp
  | cons x pre ih =>
    have hx : jsStartsWith x START_UP_COMPLETE_MSG = false := hpre x (List.mem_cons_self x pre)
    have hrest : ∀ y ∈ pre, jsStartsWith y START_UP_COMPLETE_MSG = false :=
      fun y hy => hpre y (List.mem_cons_of_mem x hy)
    obtain ⟨ih1, ih2, ih3⟩ := ih hrest
    refine ⟨?_, ?_, ?_⟩
    · rw [runGate, processLogInfo_waiting_unmatched hx]; exact ih1
    · rw [List.cons_append, runGate, processLogInfo_waiting_unmatched hx]; exact ih2
    · rw [List.cons_append, readyTransitions, processLogInfo_waiting_unmatched hx]
      simp [ih3]

/-- Witness for C1 at a concrete line sequence: one non-sentinel line, then
the exact sentinel, then one more line. -/
theorem readiness_resolves_exactly_once_witness :
    runGate .waiting ["booting"] = .waiting ∧
    runGate .waiting (["booting"] ++ "[GLSP-Server]:Startup completed" :: ["bye"]) = .ready ∧
    readyTransitions .waiting (["booting"] ++ "[GLSP-Server]:Startup completed" :: ["bye"]) = 1 :=
  readiness_resolves_exactly_once_at_first_sentinel ["booting"] ["bye"]
    "[GLSP-Server]:Startup completed" (by decide) (by decide)

/-- C2: whenever the executable path is missing, or it does not exist on
disk, or the port is `NaN`, or the executable extension is neither `.jar`
nor `.js`, `launch` rejects its readiness deferred with an error and no
process-spawn side effect occurs. -/
theorem launch_invalid_options_rejects_without_spawn
    (fsExists : String → Bool) (spawnOutcome : String → List String → Option Err)
    (o : GLSPSocketServerContributionOptions)
    (h : o.executable = none ∨
      ∃ exe, o.executable = some exe ∧
        (fsExists exe = false ∨ (o.socketConnectionOptions.port).isNaN = true ∨
          (jsEndsWith exe ".jar" = false ∧ jsEndsWith exe ".js" = false))) :
    (launch fsExists spawnOutcome o).spawns = [] ∧
    ∃ e, (launch fsExists spawnOutcome o).deferred = .failed e := by
  obtain ⟨e, he⟩ := launch_checks_error_of_invalid fsExists o h
  exact ⟨by simp [launch, he], e, by simp [launch, he, rejectGate]⟩

/-- Witness for C2: the default options (no executable at all). -/
theorem launch_invalid_options_witness :
    (launch (fun _ => true) (fun _ _ => none) createDefaultOptions).spawns = [] ∧
    ∃ e, (launch (fun _ => true) (fun _ _ => none) createDefaultOptions).deferred = .failed e :=
  launch_invalid_options_rejects_without_spawn (fun _ => true) (fun _ _ => none)
    createDefaultOptions (Or.inl rfl)

/-- C3 counterexample: the claim also quantifies over `defaultPort = 0`,
but `getPort("port", [], 0)` (no matching argument, default `0` supplied)
returns the `NaN` sentinel, not `0`, because the source guards the
default with JavaScript truthiness (`defaultPort ? defaultPort : NaN`)
and `0` is falsy. -/
theorem getPort_zero_default_counterexample :
    getPort "port" [] (some (JSNum.num 0)) = JSNum.nan ∧ JSNum.nan ≠ JSNum.num 0 := by
  decide

/-- C3 amended: port resolution scans the arguments for the first token
prefixed by `--<key>=` — where `<key>` is `argsKey` with a first `--` and
a first `=` removed (for plain keys such as `"port"` this is `argsKey`
itself) — and returns the remainder of that token parsed as a base-10
integer; if no token matches it returns `defaultPort` when a JS-truthy
(non-zero, non-`NaN`) `defaultPort` was supplied, and the `NaN` sentinel
otherwise. In particular resolving `"port"` over
`["--foo=1", "--port=8081"]` with no default yields `8081`, over `[]`
with default `5007` yields `5007`, and over `[]` with no default yields
`NaN`. -/
theorem getPort_resolution (argsKey : String) (argv : List String) (d : Option JSNum) :
    (∀ pre a post, argv = pre ++ a :: post →
      (∀ x ∈ pre, jsStartsWith x (mkArgsKey argsKey) = false) →
      jsStartsWith a (mkArgsKey argsKey) = true →
      getPort argsKey argv d = parseInt10 (jsSubstringFrom a (jsLength (mkArgsKey argsKey)))) ∧
    ((∀ x ∈ argv, jsStartsWith x (mkArgsKey argsKey) = false) →
      getPort argsKey argv d =
        (match d with
          | some v => if v.truthy then v else .nan
          | none => .nan)) ∧
    getPort "port" ["--foo=1", "--port=8081"] none = .num 8081 ∧
    getPort "port" [] (some (.num 5007)) = .num 5007 ∧
    getPort "port" [] none = .nan := by
  refine ⟨?_, ?_, by decide, by decide, by decide⟩
  · intro pre a post hsplit hpre ha
    have hfil : argv.filter (fun x => jsStartsWith x (mkArgsKey argsKey)) =
        a :: post.filter (fun x => jsStartsWith x (mkArgsKey argsKey)) := by
      rw [hsplit, List.filter_append, List.filter_eq_nil_iff.mpr (by simpa using hpre)]
      simp [ha]
    simp [getPort, hfil]
  · intro hnone
    have hfil : argv.filter (fun x => jsStartsWith x (mkArgsKey argsKey)) = [] :=
      List.filter_eq_nil_iff.mpr (by simpa using hnone)
    simp [getPort, hfil]

/-- Witness for C3 (amended) at the concrete inputs of the claim: the
first matching token of `["--foo=1", "--port=8081"]` for key `"port"` is
`"--port=8081"`, and its value parses to `8081`. -/
theorem getPort_resolution_witness :
    getPort "port" ["--foo=1", "--port=8081"] none =
      parseInt10 (jsSubstringFrom "--port=8081" (jsLength (mkArgsKey "port"))) :=
  (getPort_resolution "port" ["--foo=1", "--port=8081"] none).1
    ["--foo=1"] "--port=8081" [] rfl (by decide) (by decide)

/-- C4: for valid launch options with an existing `.jar` executable and a
numeric port, the spawned argument vector is the fixed JVM flags, then
`-jar`, then the executable path, then `--port` and the port, then
`--host` and the host exactly when a (truthy) host was configured, then
the extra arguments verbatim in order; for a `.js` executable the vector
is the same without the JVM flags and `-jar` (and the command is `node`
instead of `java`). The explicit list equality in particular puts `-jar`,
the executable and `--port <port>` in that relative order. -/
theorem launch_argument_vector
    (fsExists : String → Bool) (spawnOutcome : String → List String → Option Err)
    (o : GLSPSocketServerContributionOptions) (exe : String) (p : Int)
    (hexe : o.executable = some exe) (hne : exe ≠ "")
    (hfs : fsExists exe = true)
    (hport : o.socketConnectionOptions.port = .num p) :
    (jsEndsWith exe ".jar" = true →
      (launch fsExists spawnOutcome o).spawns =
        [("java",
          ["--add-opens", "java.base/java.util=ALL-UNNAMED", "-jar", exe, "--port", toString p] ++
            (match o.socketConnectionOptions.host with
              | some h => if h = "" then [] else ["--host", h]
              | none => []) ++
            o.additionalArgs.getD [])]) ∧
    (jsEndsWith exe ".jar" = false → jsEndsWith exe ".js" = true →
      (launch fsExists spawnOutcome o).spawns =
        [("node",
          [exe, "--port", toString p] ++
            (match o.socketConnectionOptions.host with
              | some h => if h = "" then [] else ["--host", h]
              | none => []) ++
            o.additionalArgs.getD [])]) := by
  constructor
  · intro hjar
    simp [launch, launchChecks, hexe, hne, hfs, hport, hjar, JSNum.isNaN,
      launchJavaProcessArgs, getJavaProcessJvmArgs, exeOrEmpty, hostArgs,
      additionalArgsList, JSNum.render]
  · intro hjar hjs
    simp [launch, launchChecks, hexe, hne, hfs, hport, hjar, hjs, JSNum.isNaN,
      launchNodeProcessArgs, exeOrEmpty, hostArgs, additionalArgsList, JSNum.render]

/-- Witness for C4: a `.jar` executable with host `"localhost"`, port
`8081` and one extra argument. -/
theorem launch_argument_vector_witness :
    (launch (fun _ => true) (fun _ _ => none)
      { executable := some "/srv/server.jar"
        socketConnectionOptions := { port := .num 8081, host := some "localhost" }
        additionalArgs := some ["--verbose"] }).spawns =
      [("java",
        ["--add-opens", "java.base/java.util=ALL-UNNAMED", "-jar", "/srv/server.jar",
          "--port", "8081", "--host", "localhost", "--verbose"])] := by
  have h := (launch_argument_vector (fun _ => true) (fun _ _ => none)
    { executable := some "/srv/server.jar"
      socketConnectionOptions := { port := .num 8081, host := some "localhost" }
      additionalArgs := some ["--verbose"] }
    "/srv/server.jar" 8081 rfl (by decide) rfl rfl).1 (by decide)
  simpa using h

/-- C5: `launch` never raises an error synchronously — it is a total
function into a `LaunchOutcome` whose `deferred` component is the returned
readiness promise. Every configuration error (a `launchChecks` failure)
and every launch-time spawn error ends up as a rejection of that one
deferred, and no retry is ever attempted: at most one spawn occurs. -/
theorem launch_funnels_errors_into_readiness_future
    (fsExists : String → Bool) (spawnOutcome : String → List String → Option Err)
    (o : GLSPSocketServerContributionOptions) :
    (launch fsExists spawnOutcome o).spawns.length ≤ 1 ∧
    (∀ e, launchChecks fsExists o = .error e →
      launch fsExists spawnOutcome o = { spawns := [], deferred := .failed e }) ∧
    (∀ cmd args e, launchChecks fsExists o = .ok (cmd, args) →
      spawnOutcome cmd args = some e →
      launch fsExists spawnOutcome o =
        { spawns := [(cmd, args)], deferred := .failed e }) := by
  refine ⟨?_, ?_, ?_⟩
  · match h : launchChecks fsExists o with
    | .error e => simp [launch, h]
    | .ok (cmd, args) => simp [launch, h]
  · intro e he
    simp [launch, he, rejectGate]
  · intro cmd args e hok hsp
    simp [launch, hok, hsp, rejectGate]

/-- Witness for C5: with no executable configured, the configuration error
is observed only as the rejection of the returned deferred. -/
theorem launch_funnels_errors_witness :
    launch (fun _ => true) (fun _ _ => none) createDefaultOptions =
      { spawns := [], deferred := .failed .noExecutable } :=
  (launch_funnels_errors_into_readiness_future (fun _ => true) (fun _ _ => none)
    createDefaultOptions).2.1 .noExecutable rfl

/-- C6: if the process terminates (exit or error) before any output line
carrying the sentinel was observed, the readiness deferred settles to
`failed` exactly once, and no further event — not even a later sentinel
line — changes its state: over the whole event sequence exactly one
settling transition occurs and the final state is `failed`. -/
theorem process_exit_before_sentinel_fails_once (pre post : List ProcEvent)
    (hpre : ∀ e ∈ pre, eventSignalsReady e = false) :
    runEvents .waiting (pre ++ .exited :: post) = .failed .processExited ∧
    settleCount .waiting (pre ++ .exited :: post) = 1 := by
  induction pre with
  | nil =>
    constructor
    · rw [List.nil_append, runEvents]
      show runEvents (.failed .processExited) post = .failed .processExited
      exact runEvents_failed .processExited post
    · rw [List.nil_append, settleCount]
      show (if stepEvent .waiting .exited = .waiting then 0 else 1) +
        settleCount (stepEvent .waiting .exited) post = 1
      rw [show stepEvent .waiting .exited = .failed .processExited from rfl]
      simp [settleCount_failed]
  | cons x pre ih =>
    have hx : eventSignalsReady x = false := hpre x (List.mem_cons_self x pre)
    have hrest : ∀ y ∈ pre, eventSignalsReady y = false :=
      fun y hy => hpre y (List.mem_cons_of_mem x hy)
    obtain ⟨ih1, ih2⟩ := ih hrest
    match x, hx with
    | .line s, hx =>
      have hstep : stepEvent .waiting (.line s) = .waiting :=
        processLogInfo_waiting_unmatched (by simpa [eventSignalsReady] using hx)
      constructor
      · rw [List.cons_append, runEvents, hstep]; exact ih1
      · rw [List.cons_append, settleCount, hstep]; simp [ih2]
    | .exited, _ =>
      have hstep : stepEvent .waiting .exited = .failed .processExited := rfl
      constructor
      · rw [List.cons_append, runEvents, hstep]
        exact runEvents_failed .processExited (pre ++ ProcEvent.exited :: post)
      · rw [List.cons_append, settleCount, hstep]
        simp [settleCount_failed]

/-- Witness for C6: one ordinary line, then the process exits, then a
(too late) sentinel line arrives — the deferred is `failed` and settled
exactly once. -/
theorem process_exit_before_sentinel_witness :
    runEvents .waiting ([ProcEvent.line "booting"] ++
      ProcEvent.exited :: [ProcEvent.line "[GLSP-Server]:Startup completed"]) =
      .failed .processExited ∧
    settleCount .waiting ([ProcEvent.line "booting"] ++
      ProcEvent.exited :: [ProcEvent.line "[GLSP-Server]:Startup completed"]) = 1 :=
  process_exit_before_sentinel_fails_once [ProcEvent.line "booting"]
    [ProcEvent.line "[GLSP-Server]:Startup completed"] (by decide)

/-- C7: disposing a bound session is idempotent — a second (or, in the
single-threaded event-loop model, concurrent) dispose call has no effect —
and disposing a fresh session twice issues exactly one process-kill and
exactly one socket-destroy call. -/
theorem session_dispose_idempotent :
    (∀ s, disposeSession (disposeSession s) = disposeSession s) ∧
    (disposeSession (disposeSession freshSession)).processKills = 1 ∧
    (disposeSession (disposeSession freshSession)).socketDestroys = 1 := by
  refine ⟨?_, by decide, by decide⟩
  intro s
  by_cases h : s.disposed <;> simp [disposeSession, h]

/-- C8: whenever the configured port is `NaN`, `connectToSocketServer`
throws the configuration error before anything happens: no socket is
created, no forwarder installed, no connection attempted — the effect
list is empty. This check is performed by `connect` itself, independently
of the identical check in `launch`. -/
theorem connect_nan_port_fails_before_socket (isForwardingChannel : Bool)
    (o : GLSPSocketServerContributionOptions)
    (h : (o.socketConnectionOptions.port).isNaN = true) :
    connectToSocketServer isForwardingChannel o = ([], some .portNaN) := by
  simp [connectToSocketServer, h]

/-- Witness for C8: the default options carry port `NaN`. -/
theorem connect_nan_port_witness :
    connectToSocketServer true createDefaultOptions = ([], some .portNaN) :=
  connect_nan_port_fails_before_socket true createDefaultOptions rfl

/-- C9: a socket-level error is surfaced as a channel-level error event
(`onErrorEmitter.fire`) exactly when the client channel is a
`ForwardingChannel`; otherwise it is only logged (by the forwarder) and
dropped. In both cases `onSocketError` is a total function into a list of
effects — nothing is thrown. -/
theorem socket_error_surfacing (msg : String) :
    onSocketError true msg = [ErrorEffect.logged msg, ErrorEffect.channelErrorFired msg] ∧
    onSocketError false msg = [ErrorEffect.logged msg] :=
  ⟨rfl, rfl⟩

/-- C10 counterexample: with no `socketConnectionOptions` supplied the
configured default port is indeed `NaN`, but `launch` does not always
reject with the port-is-not-a-number error: when (as in the default
options) no executable is supplied either, the executable check fires
first and the deferred is rejected with the no-executable error instead. -/
theorem default_port_rejection_not_port_error :
    (configure {}).socketConnectionOptions.port = JSNum.nan ∧
    (launch (fun _ => true) (fun _ _ => none) (configure {})).deferred =
      .failed .noExecutable ∧
    (launch (fun _ => true) (fun _ _ => none) (configure {})).deferred ≠
      .failed .portNaN := by
  decide

/-- C10 amended: for every contribution whose `createContributionOptions`
does not supply `socketConnectionOptions`, the configured default port is
the `NaN` sentinel, so `launch` always rejects its readiness deferred
without spawning a process — with the port-is-not-a-number error whenever
the executable checks pass (executable supplied, non-empty and existing
on disk) — and `connectToSocketServer` always throws its port error
before creating a socket: there is no usable built-in default port. -/
theorem default_options_port_nan (p : ContributionOptionsOverride)
    (hp : p.socketConnectionOptions = none)
    (fsExists : String → Bool) (spawnOutcome : String → List String → Option Err)
    (isForwardingChannel : Bool) :
    (configure p).socketConnectionOptions.port = JSNum.nan ∧
    (launch fsExists spawnOutcome (configure p)).spawns = [] ∧
    (∃ e, (launch fsExists spawnOutcome (configure p)).deferred = .failed e) ∧
    (∀ exe, p.executable = some exe → exe ≠ "" → fsExists exe = true →
      (launch fsExists spawnOutcome (configure p)).deferred = .failed .portNaN) ∧
    connectToSocketServer isForwardingChannel (configure p) = ([], some .portNaN) := by
  have hport : (configure p).socketConnectionOptions.port = JSNum.nan := by
    simp [configure, hp, createDefaultOptions]
  have hinv : ∃ e, launchChecks fsExists (configure p) = .error e := by
    apply launch_checks_error_of_invalid
    match hx : (configure p).executable with
    | none => exact Or.inl rfl
    | some exe => exact Or.inr ⟨exe, rfl, Or.inr (Or.inl (by rw [hport]; rfl))⟩
  obtain ⟨e, he⟩ := hinv
  refine ⟨hport, by simp [launch, he], ⟨e, by simp [launch, he, rejectGate]⟩, ?_, ?_⟩
  · intro exe hexe hne hfs
    have hx : (configure p).executable = some exe := by simp [configure, hexe]
    have : launchChecks fsExists (configure p) = .error .portNaN := by
      simp [launchChecks, hx, hne, hfs, hport, JSNum.isNaN]
    simp [launch, this, rejectGate]
  · simp [connectToSocketServer, hport, JSNum.isNaN]

/-- Witness for C10 (amended): the empty override supplies no
`socketConnectionOptions`. -/
theorem default_options_port_nan_witness :
    (configure {}).socketConnectionOptions.port = JSNum.nan ∧
    (launch (fun _ => false) (fun _ _ => none) (configure {})).spawns = [] ∧
    (∃ e, (launch (fun _ => false) (fun _ _ => none) (configure {})).deferred = .failed e) ∧
    (∀ exe, ContributionOptionsOverride.executable {} = some exe → exe ≠ "" →
      (fun _ => false) exe = true →
      (launch (fun _ => false) (fun _ _ => none) (configure {})).deferred =
        .failed .portNaN) ∧
    connectToSocketServer false (configure {}) = ([], some .portNaN) :=
  default_options_port_nan {} rfl (fun _ => false) (fun _ _ => none) false

end GLSP
